import Mathlib

/-!
Verification of the `ast37` compile front end (`src/py37/ast/Custom/ast37.c`).

The file shallowly embeds the driver and error-mapping layer of the C
source: `source_as_string`, `PARSER_FLAGS`, `err_input`,
`PyParser_ASTFromStringObject`, `Py_CompileStringObject` and
`ast37_compile_impl`.  External collaborators (the grammar-driven parser,
the AST builder `PyAST_FromNodeObject`, `PyAST_obj2mod`, `PyAST_Validate`,
`PyAST_CompileObject`, `PyAST_mod2obj`, `PyArena_New`) are abstracted by an
environment `Env` recording their outcomes; the driver's own control flow
and the sequence of calls it makes are modelled exactly, as a result value
together with a trace of events.
-/

set_option linter.unusedVariables false

deriving instance DecidableEq for Except

namespace Ast37

/-- Token kinds, as far as `err_input` inspects them (`token.h`):
INDENT, DEDENT and NOTEQUAL are compared against; every other token
number is `other n`. -/
inductive Tok where
  | indent
  | dedent
  | notequal
  | other (n : Nat)
deriving Repr, DecidableEq

/-- Error kinds of `errcode.h` as consumed by the `switch` in `err_input`:
`eError` = E_ERROR, `eSyntaxErr` = E_SYNTAX, `eToken` = E_TOKEN,
`eEofs` = E_EOFS, `eEols` = E_EOLS, `eIntr` = E_INTR, `eNomem` = E_NOMEM,
`eEof` = E_EOF, `eTabspace` = E_TABSPACE, `eOverflow` = E_OVERFLOW,
`eDedent` = E_DEDENT, `eToodeep` = E_TOODEEP, `eDecode` = E_DECODE,
`eLinecont` = E_LINECONT, `eIdentifier` = E_IDENTIFIER,
`eBadsingle` = E_BADSINGLE; `eUnknown` stands for any other code
(the `default:` branch). -/
inductive ErrKind where
  | eError
  | eSyntaxErr
  | eToken
  | eEofs
  | eEols
  | eIntr
  | eNomem
  | eEof
  | eTabspace
  | eOverflow
  | eDedent
  | eToodeep
  | eDecode
  | eLinecont
  | eIdentifier
  | eBadsingle
  | eUnknown
deriving Repr, DecidableEq

/-- The exception classes the driver can raise. -/
inductive ExcType where
  | syntaxError
  | indentationError
  | tabError
  | valueError
  | typeError
  | keyboardInterrupt
  | memoryError
deriving Repr, DecidableEq

/-- Compiler flag bits (`PyCompilerFlags.cf_flags`), modelled as a set of
named booleans.  `barryAsBdfl` is CO_FUTURE_BARRY_AS_BDFL, `otherFuture`
collects the remaining CO_FUTURE bits of PyCF_MASK, `obsolete` is
PyCF_MASK_OBSOLETE, and `unrecognised` stands for any bit outside all the
masks named in the check of `ast37_compile_impl`. -/
structure CFlags where
  dontImplyDedent : Bool := false
  ignoreCookie : Bool := false
  onlyAst : Bool := false
  barryAsBdfl : Bool := false
  otherFuture : Bool := false
  obsolete : Bool := false
  sourceIsUtf8 : Bool := false
  unrecognised : Bool := false
deriving Repr, DecidableEq

/-- Parser flag bits (`PyPARSE_*`) computed by `PARSER_FLAGS`. -/
structure ParserFlags where
  dontImplyDedent : Bool
  ignoreCookie : Bool
  barryAsBdfl : Bool
deriving Repr, DecidableEq

/-- Lines 64-77 of the source: compute parser flags from compiler flags.
A NULL `flags` pointer is `none` and yields no parser flags. -/
def PARSER_FLAGS : Option CFlags → ParserFlags
  | none => ⟨false, false, false⟩
  | some f => ⟨f.dontImplyDedent, f.ignoreCookie, f.barryAsBdfl⟩

/-- Whether a byte is a UTF-8 continuation byte (0x80..0xBF). -/
def isCont (b : Nat) : Bool := 0x80 ≤ b && b ≤ 0xBF

/-- The Unicode replacement character U+FFFD. -/
def replChar : Char := Char.ofNat 0xFFFD

/-- Model of `PyUnicode_DecodeUTF8(buf, n, "replace")` (external to the
source): decode a byte sequence to characters, replacing each invalid
byte with U+FFFD.  Valid sequences of one to four bytes decode to their
code point; a malformed lead or continuation byte yields one replacement
character and decoding resumes at the following byte. -/
def utf8DecodeReplace : List Nat → List Char
  | [] => []
  | b :: rest =>
    if b ≤ 0x7F then
      Char.ofNat b :: utf8DecodeReplace rest
    else if 0xC2 ≤ b && b ≤ 0xDF then
      match rest with
      | c1 :: rest1 =>
        if isCont c1 then
          Char.ofNat ((b % 0x20) * 0x40 + c1 % 0x40) :: utf8DecodeReplace rest1
        else
          replChar :: utf8DecodeReplace (c1 :: rest1)
      | [] => [replChar]
    else if 0xE0 ≤ b && b ≤ 0xEF then
      match rest with
      | c1 :: c2 :: rest2 =>
        if isCont c1 && isCont c2 then
          Char.ofNat ((b % 0x10) * 0x1000 + (c1 % 0x40) * 0x40 + c2 % 0x40) ::
            utf8DecodeReplace rest2
        else
          replChar :: utf8DecodeReplace (c1 :: c2 :: rest2)
      | r => replChar :: utf8DecodeReplace r
    else if 0xF0 ≤ b && b ≤ 0xF4 then
      match rest with
      | c1 :: c2 :: c3 :: rest3 =>
        if isCont c1 && isCont c2 && isCont c3 then
          Char.ofNat ((b % 0x8) * 0x40000 + (c1 % 0x40) * 0x1000 +
              (c2 % 0x40) * 0x40 + c3 % 0x40) :: utf8DecodeReplace rest3
        else
          replChar :: utf8DecodeReplace (c1 :: c2 :: c3 :: rest3)
      | r => replChar :: utf8DecodeReplace r
    else
      replChar :: utf8DecodeReplace rest

/-- Model of C `strlen` on a buffer: number of bytes before the first NUL. -/
def strlenBytes (t : List Nat) : Nat := (t.takeWhile (fun b => b ≠ 0)).length

/-- The `perrdetail` record filled in by the parser (fields as used by
`err_input`): error code, offending and expected token, 1-based line,
byte offset into the line, offending line text (NULL = `none`), and the
filename object. -/
structure Perrdetail where
  error : ErrKind
  token : Tok
  expected : Tok
  lineno : Nat
  offset : Nat
  text : Option (List Nat)
  filename : String
deriving Repr, DecidableEq

/-- Lines 170-187 of the source: the text-decoding step of `err_input`.
With no offending line text the byte offset is reported as-is and the
text is None.  Otherwise the first `offset` bytes are decoded with
errors replaced, the reported offset becomes the decoded character
count, and whenever `strlen(text)` differs from the recorded byte offset
the whole line is re-decoded. -/
def errTextOffset (e : Perrdetail) : Nat × Option (List Char) :=
  match e.text with
  | none => (e.offset, none)
  | some t =>
    let dec := utf8DecodeReplace (t.take e.offset)
    let strLen := strlenBytes t
    let finalText :=
      if strLen ≠ e.offset then utf8DecodeReplace (t.take strLen) else dec
    (dec.length, some finalText)

/-- A positioned exception value as built by `err_input`:
`(msg, (filename, lineno, offset, text))` set on class `category`. -/
structure Diagnostic where
  category : ExcType
  msg : String
  filename : String
  lineno : Nat
  offset : Nat
  text : Option (List Char)
deriving Repr, DecidableEq

/-- What `err_input` leaves as the raised exception: either a bare
exception class (KeyboardInterrupt, MemoryError) or a positioned
diagnostic. -/
inductive ExcSet where
  | plain (t : ExcType)
  | positioned (d : Diagnostic)
deriving Repr, DecidableEq

/-- Result of a run of `err_input`: the exception it set (`none` when an
error was already set, as on E_ERROR or E_INTR-with-pending-error), the
updated `perrdetail`, and whether the `text` buffer was freed. -/
structure ErrInputResult where
  exc : Option ExcSet
  err : Perrdetail
  textFreed : Bool
deriving Repr, DecidableEq

/-- Lines 79-206 of the source: map a `perrdetail` to a raised exception.
`alreadySet` is the value of `PyErr_Occurred()` consulted on E_INTR;
`fetched` is `str()` of the exception fetched on E_DECODE (`msg_obj`).
E_ERROR, E_INTR and E_NOMEM jump to `cleanup` without building a
positioned value; every other kind chooses an exception class and
message, decodes the offending line text with errors replaced, recomputes
the column offset in decoded characters, re-decodes the full line when
`strlen(text)` differs from the recorded byte offset, and builds the
positioned value.  On every path the `text` buffer is freed and nulled. -/
def err_input (alreadySet : Bool) (fetched : Option String) (e : Perrdetail) :
    ErrInputResult :=
  let cleaned : Perrdetail := { e with text := none }
  let freed : Bool := e.text.isSome
  match e.error with
  | .eError => ⟨none, cleaned, freed⟩
  | .eIntr =>
    ⟨if alreadySet then none else some (.plain .keyboardInterrupt), cleaned, freed⟩
  | .eNomem => ⟨some (.plain .memoryError), cleaned, freed⟩
  | k =>
    let tm : ExcType × String :=
      match k with
      | .eSyntaxErr =>
        if e.expected = .indent then
          (.indentationError, "expected an indented block")
        else if e.token = .indent then
          (.indentationError, "unexpected indent")
        else if e.token = .dedent then
          (.indentationError, "unexpected unindent")
        else if e.expected = .notequal then
          (.syntaxError, "with Barry as BDFL, use \x27<>\x27 instead of \x27!=\x27")
        else
          (.syntaxError, "invalid syntax")
      | .eToken => (.syntaxError, "invalid token")
      | .eEofs => (.syntaxError, "EOF while scanning triple-quoted string literal")
      | .eEols => (.syntaxError, "EOL while scanning string literal")
      | .eEof => (.syntaxError, "unexpected EOF while parsing")
      | .eTabspace =>
        (.tabError, "inconsistent use of tabs and spaces in indentation")
      | .eOverflow => (.syntaxError, "expression too long")
      | .eDedent =>
        (.indentationError, "unindent does not match any outer indentation level")
      | .eToodeep => (.indentationError, "too many levels of indentation")
      | .eDecode =>
        (.syntaxError,
          match fetched with
          | some s => s
          | none => "unknown decode error")
      | .eLinecont =>
        (.syntaxError, "unexpected character after line continuation character")
      | .eIdentifier => (.syntaxError, "invalid character in identifier")
      | .eBadsingle =>
        (.syntaxError, "multiple statements found while compiling a single statement")
      | _ => (.syntaxError, "unknown parsing error")
    let ot : Nat × Option (List Char) := errTextOffset e
    ⟨some (.positioned ⟨tm.1, tm.2, e.filename, e.lineno, ot.1, ot.2⟩),
      cleaned, freed⟩

/-- The exception class set by a run of `err_input`, when any. -/
def errCategory (r : ErrInputResult) : Option ExcType :=
  match r.exc with
  | some (.positioned d) => some d.category
  | some (.plain t) => some t
  | none => none

/-- The positioned diagnostic set by a run of `err_input`, when any. -/
def diagOf (r : ErrInputResult) : Option Diagnostic :=
  match r.exc with
  | some (.positioned d) => some d
  | _ => none

/-- The caller-supplied `source` argument, resolved by type as the C code
does with `PyUnicode_Check` / `PyBytes_Check` / `PyByteArray_Check` /
`PyObject_GetBuffer` / `PyAST_Check`.  For byte-like variants the payload
is the raw buffer; for `text` it is the UTF-8 representation returned by
`PyUnicode_AsUTF8AndSize`. -/
inductive SourceObj where
  | text (b : List Nat)
  | bytes (b : List Nat)
  | byteArray (b : List Nat)
  | buffer (b : List Nat)
  | astNode (tag : Nat)
  | other
deriving Repr, DecidableEq

/-- Model of `PyAST_Check` (external): the duck-typed test for an AST
object, resolved from the input variant. -/
def isAstCheck : SourceObj → Bool
  | .astNode _ => true
  | _ => false

/-- An exception raised by the driver.  `valueError`/`typeError` carry
only a message (no position); `diag` is a positioned syntax-family
exception built by `err_input`; `plainExc` a bare class; `preexisting`
stands for a failure whose exception was set inside an external
collaborator (E_ERROR, arena/obj2mod/validator/compiler failures). -/
inductive Raised where
  | valueError (msg : String)
  | typeError (msg : String)
  | diag (d : Diagnostic)
  | plainExc (t : ExcType)
  | preexisting
deriving Repr, DecidableEq

/-- NUL check of `source_as_string` lines 54-59: `strlen(str) != size`
exactly when the buffer holds an embedded NUL byte. -/
def nulCheck (b : List Nat) : Except Raised (List Nat) :=
  if strlenBytes b ≠ b.length then
    .error (.valueError "source code string cannot contain null bytes")
  else
    .ok b

/-- Lines 13-61 of the source: normalize the source object to a byte
string, updating the compiler flags.  For a text object the
PyCF_IGNORE_COOKIE bit is or-ed into the flags before conversion; byte,
bytearray and buffer objects pass their bytes through; any other object
is a TypeError.  Every byte-like result is checked for embedded NUL.
Returns the result together with the (possibly updated) flags, since the
C code mutates `*cf` in place. -/
def source_as_string (cmd : SourceObj) (funcname what : String) (cf : CFlags) :
    Except Raised (List Nat) × CFlags :=
  match cmd with
  | .text b => (nulCheck b, { cf with ignoreCookie := true })
  | .bytes b => (nulCheck b, cf)
  | .byteArray b => (nulCheck b, cf)
  | .buffer b => (nulCheck b, cf)
  | _ =>
    (.error (.typeError (funcname ++ "() arg 1 must be a " ++ what ++ " object")),
      cf)

/-- Grammar start symbols, `start[] = {Py_file_input, Py_eval_input,
Py_single_input}`. -/
inductive StartSym where
  | fileInput
  | evalInput
  | singleInput
deriving Repr, DecidableEq

/-- The `start[]` array of `ast37_compile_impl`. -/
def startSymbols : List StartSym := [.fileInput, .evalInput, .singleInput]

/-- The `compile_mode` selection of lines 308-318: "exec" ↦ 0,
"eval" ↦ 1, "single" ↦ 2, anything else is rejected. -/
def compile_mode (mode : String) : Option Nat :=
  if mode = "exec" then some 0
  else if mode = "eval" then some 1
  else if mode = "single" then some 2
  else none

/-- Events the driver performs, in order, during one run: arena
allocation and teardown, the parse call (carrying the parser flags handed
to the parser), AST lowering, parse-node teardown, the `err_input`
diagnostic translation, AST-to-object and object-to-AST conversion,
validation (with its verdict) and the external code generator. -/
inductive Ev where
  | arenaNew
  | arenaFree
  | parse (pf : ParserFlags)
  | astFromNode
  | nodeFree
  | errInputRun
  | mod2obj
  | obj2mod
  | validate (ok : Bool)
  | compileObject
deriving Repr, DecidableEq

/-- A successful result of the driver: a code object, an AST object
(`PyAST_mod2obj` output), or the caller's own source object handed back
(the pre-built-AST `ast_only` path). -/
inductive ResultVal where
  | code (n : Nat)
  | astObj (n : Nat)
  | same (s : SourceObj)
deriving Repr, DecidableEq

/-- Outcomes of the external collaborators for one run, abstracting the
parser, AST builder, converters, validator, code generator and arena
allocator.  `ambient` is the frame flag set merged by
`PyEval_MergeCompilerFlags`; `alreadySet` is `PyErr_Occurred()` at
E_INTR; `fetched` is the stringified fetched exception at E_DECODE. -/
structure Env where
  arenaNewOk : Bool
  parseResult : Except Perrdetail Nat
  astFromNode : Option Nat
  mod2obj : Option Nat
  obj2mod : Option Nat
  validateOk : Bool
  compileObject : Option Nat
  ambient : CFlags
  alreadySet : Bool
  fetched : Option String
deriving Repr, DecidableEq

/-- Model of `PyEval_MergeCompilerFlags` (external): or the ambient
frame's compiler flags, restricted to PyCF_MASK (the CO_FUTURE bits),
into the current flags. -/
def mergeCompilerFlags (cf amb : CFlags) : CFlags :=
  { cf with
    barryAsBdfl := cf.barryAsBdfl || amb.barryAsBdfl
    otherFuture := cf.otherFuture || amb.otherFuture }

/-- Lines 215-244 of the source: parse the string to a concrete parse
node, then lower it to an AST (`PyAST_FromNodeObject`) and free the node;
on parse failure run `err_input` on the error detail.  The parse event
records `iflags = PARSER_FLAGS(flags)` as handed to the parser.  (On
success the parser's future-feature bits are or-ed back into the flags;
they feed only the external code generator, which the environment
abstracts.) -/
def PyParser_ASTFromStringObject (env : Env) (flags : Option CFlags) :
    Except Raised Nat × List Ev :=
  let iflags := PARSER_FLAGS flags
  match env.parseResult with
  | .ok _n =>
    match env.astFromNode with
    | some m => (.ok m, [.parse iflags, .astFromNode, .nodeFree])
    | none => (.error .preexisting, [.parse iflags, .astFromNode, .nodeFree])
  | .error e =>
    let r := err_input env.alreadySet env.fetched e
    let raised : Raised :=
      match r.exc with
      | some (.plain t) => .plainExc t
      | some (.positioned d) => .diag d
      | none => .preexisting
    (.error raised, [.parse iflags, .errInputRun])

/-- Lines 246-270 of the source: allocate an arena, parse-and-lower, and
then either convert the AST to an object (when PyCF_ONLY_AST is set) or
hand it to the external code generator; the arena is freed before every
return.  A failed arena allocation returns at once with no events. -/
def Py_CompileStringObject (env : Env) (str : List Nat) (filename : String)
    (start : StartSym) (flags : Option CFlags) (optimize : Int) :
    Except Raised ResultVal × List Ev :=
  if env.arenaNewOk then
    match PyParser_ASTFromStringObject env flags with
    | (.error r, ptr) => (.error r, .arenaNew :: ptr ++ [.arenaFree])
    | (.ok _m, ptr) =>
      if (match flags with | some f => f.onlyAst | none => false) then
        match env.mod2obj with
        | some o => (.ok (.astObj o), .arenaNew :: ptr ++ [.mod2obj, .arenaFree])
        | none => (.error .preexisting, .arenaNew :: ptr ++ [.mod2obj, .arenaFree])
      else
        match env.compileObject with
        | some c =>
          (.ok (.code c), .arenaNew :: ptr ++ [.compileObject, .arenaFree])
        | none =>
          (.error .preexisting, .arenaNew :: ptr ++ [.compileObject, .arenaFree])
  else
    (.error .preexisting, [])

/-- Lines 287 and 304-306 of the source: the effective compiler flags of a
run of `ast37_compile_impl` — the caller's flags with PyCF_SOURCE_IS_UTF8
or-ed in, then (unless `dont_inherit`) the ambient frame flags merged by
`PyEval_MergeCompilerFlags`. -/
def implFlags (flags : CFlags) (dont_inherit : Bool) (amb : CFlags) : CFlags :=
  let cf : CFlags := { flags with sourceIsUtf8 := true }
  if !dont_inherit then mergeCompilerFlags cf amb else cf

/-- Lines 272-364 of the source, the front door.  In order: reject flag
bits outside PyCF_MASK | PyCF_MASK_OBSOLETE | PyCF_DONT_IMPLY_DEDENT |
PyCF_ONLY_AST (in this model: `unrecognised`, `sourceIsUtf8` or
`ignoreCookie` set by the caller); reject optimize outside -1..2; resolve
the mode string; then either the pre-built-AST path (return the source
unchanged under PyCF_ONLY_AST, else obj2mod → validate → compile inside a
fresh arena) or the string path through `source_as_string` (called on the
effective flags `implFlags`) and `Py_CompileStringObject`. -/
def ast37_compile_impl (env : Env) (source : SourceObj) (filename : String)
    (mode : String) (flags : CFlags) (dont_inherit : Bool) (optimize : Int) :
    Except Raised ResultVal × List Ev :=
  if flags.unrecognised || flags.sourceIsUtf8 || flags.ignoreCookie then
    (.error (.valueError "compile(): unrecognised flags"), [])
  else if optimize < -1 || optimize > 2 then
    (.error (.valueError "compile(): invalid optimize value"), [])
  else
    match compile_mode mode with
    | none =>
      (.error (.valueError
        "compile() mode must be \x27exec\x27, \x27eval\x27 or \x27single\x27"), [])
    | some cm =>
      if isAstCheck source then
        if flags.onlyAst then
          (.ok (.same source), [])
        else if env.arenaNewOk then
          match env.obj2mod with
          | none => (.error .preexisting, [.arenaNew, .obj2mod, .arenaFree])
          | some _m =>
            if env.validateOk then
              match env.compileObject with
              | some c =>
                (.ok (.code c),
                  [.arenaNew, .obj2mod, .validate true, .compileObject, .arenaFree])
              | none =>
                (.error .preexisting,
                  [.arenaNew, .obj2mod, .validate true, .compileObject, .arenaFree])
            else
              (.error .preexisting, [.arenaNew, .obj2mod, .validate false, .arenaFree])
        else
          (.error .preexisting, [])
      else
        match source_as_string source "compile" "string, bytes or AST"
            (implFlags flags dont_inherit env.ambient) with
        | (.error r, _cf2) => (.error r, [])
        | (.ok str, cf2) =>
          Py_CompileStringObject env str filename (startSymbols.getD cm .fileInput)
            (some cf2) optimize

/-- Event `a` occurs strictly before event `b` in the trace `tr`. -/
def precedes (a b : Ev) (tr : List Ev) : Prop :=
  ∃ l1 l2, tr = l1 ++ a :: l2 ∧ b ∈ l2

/-- A collaborator environment in which every external call succeeds. -/
def envOk : Env :=
  { arenaNewOk := true
    parseResult := .ok 0
    astFromNode := some 1
    mod2obj := some 2
    obj2mod := some 3
    validateOk := true
    compileObject := some 4
    ambient := {}
    alreadySet := false
    fetched := none }

/-- A buffer with an embedded NUL has a C string length different from its
size. -/
theorem strlen_ne_of_mem_zero {b : List Nat} (h : 0 ∈ b) :
    strlenBytes b ≠ b.length := by
  induction b with
  | nil => simp at h
  | cons a t ih =>
    by_cases ha : a = 0
    · subst ha
      simp [strlenBytes, List.takeWhile]
    · rcases List.mem_cons.mp h with h0 | h0
      · exact absurd h0.symm ha
      · have := ih h0
        simp only [strlenBytes, List.takeWhile] at *
        simp [ha] at *
        omega

/-- The parse-and-lower stage performs one of two call sequences. -/
theorem parser_trace_shapes (env : Env) (flags : Option CFlags) :
    (PyParser_ASTFromStringObject env flags).2 =
        [.parse (PARSER_FLAGS flags), .errInputRun] ∨
      (PyParser_ASTFromStringObject env flags).2 =
        [.parse (PARSER_FLAGS flags), .astFromNode, .nodeFree] := by
  unfold PyParser_ASTFromStringObject
  rcases env.parseResult with e | n
  · simp
  · rcases env.astFromNode with _ | m <;> simp

/-- The string-compilation stage performs one of five call sequences. -/
theorem pyCompile_trace_shapes (env : Env) (str : List Nat) (fn : String)
    (st : StartSym) (flags : Option CFlags) (opt : Int) (tr : List Ev)
    (htr : tr = (Py_CompileStringObject env str fn st flags opt).2) :
    tr = [] ∨
    tr = [.arenaNew, .parse (PARSER_FLAGS flags), .errInputRun, .arenaFree] ∨
    tr = [.arenaNew, .parse (PARSER_FLAGS flags), .astFromNode, .nodeFree,
      .arenaFree] ∨
    tr = [.arenaNew, .parse (PARSER_FLAGS flags), .astFromNode, .nodeFree,
      .mod2obj, .arenaFree] ∨
    tr = [.arenaNew, .parse (PARSER_FLAGS flags), .astFromNode, .nodeFree,
      .compileObject, .arenaFree] := by
  subst htr
  unfold Py_CompileStringObject PyParser_ASTFromStringObject
  by_cases ha : env.arenaNewOk
  · simp only [ha, if_true]
    refine Or.inr ?_
    rcases hp : env.parseResult with e | n
    · simp
    · rcases hn : env.astFromNode with _ | k
      · simp
      · split
        · rename_i heq
          simp at heq
        · rename_i heq
          simp at heq
          obtain ⟨-, hptr⟩ := heq
          subst hptr
          split
          · rcases env.mod2obj with _ | o <;> simp
          · rcases env.compileObject with _ | c <;> simp
  · simp [ha]

/-- Every run of the driver performs one of eight call sequences. -/
theorem ast37_trace_shapes (env : Env) (s : SourceObj) (fn mode : String)
    (flags : CFlags) (di : Bool) (opt : Int) (tr : List Ev)
    (htr : tr = (ast37_compile_impl env s fn mode flags di opt).2) :
    tr = [] ∨
    tr = [.arenaNew, .obj2mod, .arenaFree] ∨
    tr = [.arenaNew, .obj2mod, .validate false, .arenaFree] ∨
    tr = [.arenaNew, .obj2mod, .validate true, .compileObject, .arenaFree] ∨
    ∃ pf : ParserFlags,
      tr = [.arenaNew, .parse pf, .errInputRun, .arenaFree] ∨
      tr = [.arenaNew, .parse pf, .astFromNode, .nodeFree, .arenaFree] ∨
      tr = [.arenaNew, .parse pf, .astFromNode, .nodeFree, .mod2obj, .arenaFree] ∨
      tr = [.arenaNew, .parse pf, .astFromNode, .nodeFree, .compileObject,
        .arenaFree] := by
  subst htr
  unfold ast37_compile_impl
  split
  · simp
  split
  · simp
  split
  · simp
  rename_i x cm hcm
  split
  · split
    · simp
    split
    · rcases env.obj2mod with _ | m
      · simp
      · by_cases hv : env.validateOk <;>
          rcases env.compileObject with _ | c <;> simp [hv]
    · simp
  · rcases hss : source_as_string s "compile" "string, bytes or AST"
        (implFlags flags di env.ambient) with ⟨sres, cf2⟩
    rcases sres with r | str
    · exact Or.inl rfl
    · rcases pyCompile_trace_shapes env str fn
          (startSymbols.getD cm .fileInput) (some cf2) opt _ rfl with h | h | h | h | h
      · exact Or.inl h
      all_goals exact Or.inr (Or.inr (Or.inr (Or.inr
        ⟨PARSER_FLAGS (some cf2), by tauto⟩)))

/-- Every parse event of the string-compilation stage carries exactly the
parser flags computed by `PARSER_FLAGS` from the compiler flags it was
handed. -/
theorem pyCompile_parse_flags (env : Env) (str : List Nat) (fn : String)
    (st : StartSym) (flags : Option CFlags) (opt : Int) (pf : ParserFlags)
    (h : Ev.parse pf ∈ (Py_CompileStringObject env str fn st flags opt).2) :
    pf = PARSER_FLAGS flags := by
  rcases pyCompile_trace_shapes env str fn st flags opt _ rfl with
    hh | hh | hh | hh | hh <;> rw [hh] at h <;> simp_all

/-- C3: the error-kind-to-category mapping of `err_input` is fixed:
E_TABSPACE yields TabError; E_DEDENT and E_TOODEEP yield
IndentationError; E_SYNTAX with indent context (expected token INDENT, or
actual token INDENT or DEDENT) yields IndentationError; and every
remaining E_SYNTAX, as well as E_TOKEN, E_EOFS, E_EOLS, E_EOF,
E_OVERFLOW, E_LINECONT, E_IDENTIFIER and E_BADSINGLE, yields
SyntaxError. -/
theorem C3_error_categories (a : Bool) (f : Option String) (e : Perrdetail) :
    (e.error = .eTabspace → errCategory (err_input a f e) = some .tabError) ∧
    ((e.error = .eDedent ∨ e.error = .eToodeep) →
      errCategory (err_input a f e) = some .indentationError) ∧
    (e.error = .eSyntaxErr →
      ((e.expected = .indent ∨ e.token = .indent ∨ e.token = .dedent) →
        errCategory (err_input a f e) = some .indentationError) ∧
      (e.expected ≠ .indent → e.token ≠ .indent → e.token ≠ .dedent →
        errCategory (err_input a f e) = some .syntaxError)) ∧
    ((e.error = .eToken ∨ e.error = .eEofs ∨ e.error = .eEols ∨
        e.error = .eEof ∨ e.error = .eOverflow ∨ e.error = .eLinecont ∨
        e.error = .eIdentifier ∨ e.error = .eBadsingle) →
      errCategory (err_input a f e) = some .syntaxError) := by
  obtain ⟨err, tok, exp, ln, off, txt, fn⟩ := e
  refine ⟨?_, ?_, ?_, ?_⟩
  · rintro rfl
    simp [err_input, errCategory]
  · rintro (rfl | rfl) <;> simp [err_input, errCategory]
  · rintro rfl
    constructor
    · intro h
      by_cases h1 : exp = Tok.indent
      · simp [err_input, errCategory, h1]
      by_cases h2 : tok = Tok.indent
      · simp [err_input, errCategory, h1, h2]
      by_cases h3 : tok = Tok.dedent
      · simp [err_input, errCategory, h1, h2, h3]
      · tauto
    · intro h1 h2 h3
      by_cases h4 : exp = Tok.notequal <;>
        simp [err_input, errCategory, h1, h2, h3, h4]
  · rintro (rfl | rfl | rfl | rfl | rfl | rfl | rfl | rfl) <;>
      simp [err_input, errCategory]

/-- C3 witness: an E_TABSPACE detail is mapped to TabError. -/
theorem C3_witness :
    errCategory (err_input false none
      ⟨.eTabspace, .other 0, .other 0, 1, 0, none, "f.py"⟩) =
      some ExcType.tabError :=
  (C3_error_categories false none
    ⟨.eTabspace, .other 0, .other 0, 1, 0, none, "f.py"⟩).1 rfl

/-- C10: after `err_input` returns, the detail's offending-line text
buffer has been freed (exactly when one was present) and its pointer set
to null, for every error kind, including the early-exit kinds E_ERROR,
E_INTR and E_NOMEM. -/
theorem C10_text_freed (a : Bool) (f : Option String) (e : Perrdetail) :
    (err_input a f e).err.text = none ∧
      (err_input a f e).textFreed = e.text.isSome := by
  obtain ⟨err, tok, exp, ln, off, txt, fn⟩ := e
  cases err <;> simp [err_input]

/-- C4: every driver run that allocates an Arena frees it exactly once
before returning, on every exit path, and no run allocates more than one
Arena. -/
theorem C4_arena_freed_once (env : Env) (s : SourceObj) (fn mode : String)
    (flags : CFlags) (di : Bool) (opt : Int) (tr : List Ev)
    (htr : tr = (ast37_compile_impl env s fn mode flags di opt).2) :
    (Ev.arenaNew ∈ tr → tr.count Ev.arenaFree = 1) ∧
    (Ev.arenaNew ∉ tr → tr.count Ev.arenaFree = 0) ∧
    tr.count Ev.arenaNew ≤ 1 := by
  have hsh := ast37_trace_shapes env s fn mode flags di opt tr htr
  clear htr
  rcases hsh with h | h | h | h | ⟨pf, h | h | h | h⟩ <;> subst h <;>
    refine ⟨fun _ => ?_, fun hn => ?_, ?_⟩ <;>
    simp_all [List.count_cons]

/-- C4 witness: the pre-built-AST success path allocates once and frees
once. -/
theorem C4_witness :
    List.count Ev.arenaFree [Ev.arenaNew, Ev.obj2mod, Ev.validate true,
      Ev.compileObject, Ev.arenaFree] = 1 :=
  (C4_arena_freed_once envOk (.astNode 0) "f.py" "exec" {} true 0
    [Ev.arenaNew, Ev.obj2mod, Ev.validate true, Ev.compileObject, Ev.arenaFree]
    (by decide)).1 (by decide)

/-- C8: every optimize value outside -1..2 is rejected with a
position-free configuration error before any tokenizing or parsing
begins (the run performs no calls at all). -/
theorem C8_invalid_optimize (env : Env) (s : SourceObj) (fn mode : String)
    (flags : CFlags) (di : Bool) (opt : Int)
    (hf : flags.unrecognised = false) (hu : flags.sourceIsUtf8 = false)
    (hi : flags.ignoreCookie = false)
    (ho : opt < -1 ∨ opt > 2) :
    ast37_compile_impl env s fn mode flags di opt =
        (.error (.valueError "compile(): invalid optimize value"), []) ∧
      ∀ d : Diagnostic,
        (ast37_compile_impl env s fn mode flags di opt).1 ≠ .error (.diag d) := by
  have h1 : (flags.unrecognised || flags.sourceIsUtf8 || flags.ignoreCookie)
      = false := by
    simp [hf, hu, hi]
  have hcond : (opt < -1 ∨ opt > 2) := ho
  constructor
  · unfold ast37_compile_impl
    rcases ho with h | h <;> simp [h1, h]
  · intro d
    unfold ast37_compile_impl
    rcases ho with h | h <;> simp [h1, h]

/-- C8 witness: optimize = 3 is rejected up front. -/
theorem C8_witness :
    ast37_compile_impl envOk (.bytes [97]) "f.py" "exec" {} true 3 =
      (.error (.valueError "compile(): invalid optimize value"), []) :=
  (C8_invalid_optimize envOk (.bytes [97]) "f.py" "exec" {} true 3 rfl rfl rfl
    (Or.inr (by decide))).1

/-- C7: every byte-like source containing an embedded NUL byte is
rejected with the dedicated ValueError — an error distinct from every
positioned syntax-family diagnostic — and no tokenizing or parsing call
occurs in that run. -/
theorem C7_nul_rejected (env : Env) (b : List Nat) (s : SourceObj)
    (fn mode : String) (flags : CFlags) (di : Bool) (opt : Int)
    (hs : s = .text b ∨ s = .bytes b ∨ s = .byteArray b ∨ s = .buffer b)
    (h0 : 0 ∈ b)
    (hf : flags.unrecognised = false) (hu : flags.sourceIsUtf8 = false)
    (hi : flags.ignoreCookie = false)
    (ho1 : -1 ≤ opt) (ho2 : opt ≤ 2)
    (hm : (compile_mode mode).isSome = true) :
    (ast37_compile_impl env s fn mode flags di opt).1 =
        .error (.valueError "source code string cannot contain null bytes") ∧
      (∀ d : Diagnostic, (ast37_compile_impl env s fn mode flags di opt).1 ≠
        .error (.diag d)) ∧
      ∀ pf : ParserFlags,
        Ev.parse pf ∉ (ast37_compile_impl env s fn mode flags di opt).2 := by
  have hB : strlenBytes b ≠ b.length := strlen_ne_of_mem_zero h0
  have h1 : (flags.unrecognised || flags.sourceIsUtf8 || flags.ignoreCookie)
      = false := by
    simp [hf, hu, hi]
  have h2 : ¬(opt < -1) := by omega
  have h3 : ¬(opt > 2) := by omega
  obtain ⟨cm, hcm⟩ := Option.isSome_iff_exists.mp hm
  rcases hs with rfl | rfl | rfl | rfl <;>
    · unfold ast37_compile_impl
      simp [h1, h2, h3, hcm, isAstCheck, source_as_string, nulCheck, hB]

/-- On the pre-built-AST path the driver performs one of four call
sequences. -/
theorem ast37_trace_shapes_ast (env : Env) (s : SourceObj) (fn mode : String)
    (flags : CFlags) (di : Bool) (opt : Int) (tr : List Ev)
    (htr : tr = (ast37_compile_impl env s fn mode flags di opt).2)
    (hs : isAstCheck s = true) :
    tr = [] ∨
    tr = [.arenaNew, .obj2mod, .arenaFree] ∨
    tr = [.arenaNew, .obj2mod, .validate false, .arenaFree] ∨
    tr = [.arenaNew, .obj2mod, .validate true, .compileObject, .arenaFree] := by
  subst htr
  unfold ast37_compile_impl
  split
  · simp
  split
  · simp
  split
  · simp
  split
  · simp
  split
  · rcases env.obj2mod with _ | m
    · simp
    · by_cases hv : env.validateOk <;>
        rcases env.compileObject with _ | c <;> simp [hv]
  · simp

/-- The `onlyAst` flag of the effective compiler flags is the caller's. -/
theorem implFlags_onlyAst (flags : CFlags) (di : Bool) (amb : CFlags) :
    (implFlags flags di amb).onlyAst = flags.onlyAst := by
  unfold implFlags mergeCompilerFlags
  split <;> rfl

/-- Source-object normalization never changes the `onlyAst` flag. -/
theorem source_as_string_onlyAst (cmd : SourceObj) (fnm wt : String)
    (cf : CFlags) :
    ((source_as_string cmd fnm wt cf).2).onlyAst = cf.onlyAst := by
  cases cmd <;> simp [source_as_string]

/-- Under PyCF_ONLY_AST the string-compilation stage never validates nor
invokes the code generator, and a successful result is the converted AST
object. -/
theorem pyCompile_onlyAst (env : Env) (str : List Nat) (fn : String)
    (st : StartSym) (f : CFlags) (opt : Int) (h : f.onlyAst = true) :
    Ev.compileObject ∉ (Py_CompileStringObject env str fn st (some f) opt).2 ∧
    (∀ b, Ev.validate b ∉ (Py_CompileStringObject env str fn st (some f) opt).2) ∧
    ∀ v, (Py_CompileStringObject env str fn st (some f) opt).1 = .ok v →
      ∃ n, v = .astObj n := by
  unfold Py_CompileStringObject PyParser_ASTFromStringObject
  by_cases ha : env.arenaNewOk
  · simp only [ha, if_true]
    rcases hp : env.parseResult with e | n
    · simp
    · rcases hn : env.astFromNode with _ | k
      · simp
      · rcases hm : env.mod2obj with _ | o <;> simp [h, hm]
  · simp [ha]

/-- C1 counterexample: a successful fresh-parse compilation reaches the
external code generator with no validator call anywhere in the run, so
validation does not run regardless of how the AST was produced. -/
theorem C1_counterexample :
    (ast37_compile_impl envOk (.bytes [97]) "f.py" "exec" {} true 0).1 =
        .ok (.code 4) ∧
      Ev.compileObject ∈
        (ast37_compile_impl envOk (.bytes [97]) "f.py" "exec" {} true 0).2 ∧
      ∀ b, Ev.validate b ∉
        (ast37_compile_impl envOk (.bytes [97]) "f.py" "exec" {} true 0).2 := by
  refine ⟨by decide, by decide, ?_⟩
  decide

/-- C1 (amended): only on the pre-built-AST path does every run that
reaches the code generator have the validator accept the AST first; the
freshly-parsed path hands the AST builder's output straight to the code
generator. -/
theorem C1_amended_validated_codegen (env : Env) (s : SourceObj)
    (fn mode : String) (flags : CFlags) (di : Bool) (opt : Int) (tr : List Ev)
    (htr : tr = (ast37_compile_impl env s fn mode flags di opt).2)
    (hs : isAstCheck s = true)
    (hc : Ev.compileObject ∈ tr) :
    precedes (Ev.validate true) Ev.compileObject tr := by
  rcases ast37_trace_shapes_ast env s fn mode flags di opt tr htr hs with
    h | h | h | h <;> subst h
  · simp at hc
  · simp at hc
  · simp at hc
  · exact ⟨[.arenaNew, .obj2mod], [.compileObject, .arenaFree], rfl, by simp⟩

/-- C1 witness: a pre-built-AST run that reaches the code generator
validated first. -/
theorem C1_witness :
    precedes (Ev.validate true) Ev.compileObject
      [.arenaNew, .obj2mod, .validate true, .compileObject, .arenaFree] :=
  C1_amended_validated_codegen envOk (.astNode 0) "f.py" "exec" {} true 0
    [.arenaNew, .obj2mod, .validate true, .compileObject, .arenaFree]
    (by decide) rfl (by decide)

/-- C2 counterexample: with `ast_only` set and a pre-built AST supplied,
the driver returns the AST at once — no validator call occurs in the run,
against the claim that the pipeline stops only after the AST Validator
stage has run. -/
theorem C2_counterexample :
    ast37_compile_impl envOk (.astNode 7) "f.py" "exec" { onlyAst := true }
        true 0 = (.ok (.same (.astNode 7)), []) ∧
      ∀ b, Ev.validate b ∉
        (ast37_compile_impl envOk (.astNode 7) "f.py" "exec" { onlyAst := true }
          true 0).2 := by
  refine ⟨by decide, ?_⟩
  decide

/-- C2 (amended): with `ast_only` set the external code generator is never
invoked and no validation stage runs: a pre-built AST is returned
unchanged, and parsed source stops right after AST lowering and
conversion, the result being the AST object. -/
theorem C2_amended_ast_only (env : Env) (s : SourceObj) (fn mode : String)
    (flags : CFlags) (di : Bool) (opt : Int) (r : Except Raised ResultVal)
    (tr : List Ev)
    (hr : r = (ast37_compile_impl env s fn mode flags di opt).1)
    (htr : tr = (ast37_compile_impl env s fn mode flags di opt).2)
    (honly : flags.onlyAst = true) :
    Ev.compileObject ∉ tr ∧
    (∀ b, Ev.validate b ∉ tr) ∧
    ∀ v, r = .ok v → (∃ n, v = .astObj n) ∨ v = .same s := by
  subst hr htr
  unfold ast37_compile_impl
  split
  · simp
  split
  · simp
  split
  · simp
  rename_i x cm hcm
  split
  · simp
  · rcases hss : source_as_string s "compile" "string, bytes or AST"
        (implFlags flags di env.ambient) with ⟨sres, cf2⟩
    have hcf : cf2.onlyAst = true := by
      have h1 := source_as_string_onlyAst s "compile" "string, bytes or AST"
        (implFlags flags di env.ambient)
      rw [hss] at h1
      simp only at h1
      rw [h1, implFlags_onlyAst]
      exact honly
    rcases sres with rr | str
    · simp
    · have h := pyCompile_onlyAst env str fn (startSymbols.getD cm .fileInput)
        cf2 opt hcf
      refine ⟨h.1, h.2.1, fun v hv => Or.inl (h.2.2 v hv)⟩

/-- C2 witness: an `ast_only` run on parsed source returns the converted
AST object and its trace holds neither a validate nor a code-generator
call. -/
theorem C2_witness :
    Ev.compileObject ∉
        (ast37_compile_impl envOk (.bytes [97]) "f.py" "exec"
          { onlyAst := true } true 0).2 ∧
      ((∃ n, (ResultVal.astObj 2 : ResultVal) = .astObj n) ∨
        (ResultVal.astObj 2 : ResultVal) = .same (.bytes [97])) := by
  have h := C2_amended_ast_only envOk (.bytes [97]) "f.py" "exec"
    { onlyAst := true } true 0 _ _ rfl rfl rfl
  exact ⟨h.1, h.2.2 (.astObj 2) (by decide)⟩

/-- C7 witness: byte source 'a\x00b' is rejected with the NUL
ValueError. -/
theorem C7_witness :
    (ast37_compile_impl envOk (.bytes [97, 0, 98]) "f.py" "exec" {} true 0).1 =
      .error (.valueError "source code string cannot contain null bytes") :=
  (C7_nul_rejected envOk [97, 0, 98] (.bytes [97, 0, 98]) "f.py" "exec" {}
    true 0 (Or.inr (Or.inl rfl)) (by decide) rfl rfl rfl (by decide) (by decide)
    rfl).1

/-- Any positioned diagnostic built by `err_input` takes its offset and
line text exactly from the text-decoding step `errTextOffset`. -/
theorem err_input_text_fields (a : Bool) (f : Option String) (e : Perrdetail)
    (d : Diagnostic) (hd : diagOf (err_input a f e) = some d) :
    d.offset = (errTextOffset e).1 ∧ d.text = (errTextOffset e).2 := by
  obtain ⟨err, tok, exp, ln, off, txt, fn⟩ := e
  cases err <;> cases a <;>
    simp [err_input, diagOf] at hd <;>
    subst hd <;> exact ⟨rfl, rfl⟩

/-- C6: for every ErrorDetail carrying offending-line text, the reported
column offset is the character count of the permissive decode of the
first `offset` bytes of the line (decoded-character units, not raw
bytes), and whenever the raw byte length of the line differs from the
recorded byte offset, the reported line text is the full permissive
re-decode of the line. -/
theorem C6_offset_in_chars (a : Bool) (f : Option String) (e : Perrdetail)
    (t : List Nat) (d : Diagnostic)
    (ht : e.text = some t)
    (hd : diagOf (err_input a f e) = some d) :
    d.offset = (utf8DecodeReplace (t.take e.offset)).length ∧
    (strlenBytes t ≠ e.offset →
      d.text = some (utf8DecodeReplace (t.take (strlenBytes t)))) := by
  have h := err_input_text_fields a f e d hd
  constructor
  · rw [h.1]
    simp [errTextOffset, ht]
  · intro hne
    rw [h.2]
    simp [errTextOffset, ht, hne]

/-- C6 witness: line text C3 A9 78 ("éx") with byte offset 2 is reported
at character offset 1, and since strlen 3 differs from offset 2 the line
is re-decoded in full. -/
theorem C6_witness :
    ((⟨.syntaxError, "invalid token", "f.py", 1, 1,
        some [Char.ofNat 0xE9, Char.ofNat 0x78]⟩ : Diagnostic).offset =
      (utf8DecodeReplace ([0xC3, 0xA9, 0x78].take 2)).length) ∧
    (⟨.syntaxError, "invalid token", "f.py", 1, 1,
        some [Char.ofNat 0xE9, Char.ofNat 0x78]⟩ : Diagnostic).text =
      some (utf8DecodeReplace ([0xC3, 0xA9, 0x78].take
        (strlenBytes [0xC3, 0xA9, 0x78]))) := by
  have h := C6_offset_in_chars false none
    ⟨.eToken, .other 0, .other 0, 1, 2, some [0xC3, 0xA9, 0x78], "f.py"⟩
    [0xC3, 0xA9, 0x78]
    ⟨.syntaxError, "invalid token", "f.py", 1, 1,
      some [Char.ofNat 0xE9, Char.ofNat 0x78]⟩ rfl (by decide)
  exact ⟨h.1, h.2 (by decide)⟩

/-- Modelled from the spec: the grammar-driven parser (`parsetok.c`, which
is not part of this source file) recognizes the single legacy
relaxed-grammar token substitution path — reporting an E_SYNTAX
ErrorDetail whose expected token is NOTEQUAL — only when the
BARRY_AS_BDFL parser flag is set. -/
def parserBarryOnly (pf : ParserFlags) (e : Perrdetail) : Prop :=
  e.error = ErrKind.eSyntaxErr → e.expected = Tok.notequal →
    pf.barryAsBdfl = true

/-- C5: for error details the parser can produce under the computed parser
flags, the relaxed-spelling message appears only when the BARRY_AS_BDFL
flag is set in the compiler flags; without the flag, an E_SYNTAX detail
outside the indent context falls through to the generic invalid-syntax
message. -/
theorem C5_barry_gated (cf : CFlags) (a : Bool) (f : Option String)
    (e : Perrdetail) (d : Diagnostic)
    (hp : parserBarryOnly (PARSER_FLAGS (some cf)) e)
    (hd : diagOf (err_input a f e) = some d) :
    (cf.barryAsBdfl = false → e.error = .eSyntaxErr →
      d.msg ≠ "with Barry as BDFL, use \x27<>\x27 instead of \x27!=\x27" ∧
      (e.expected ≠ .indent → e.token ≠ .indent → e.token ≠ .dedent →
        d.msg = "invalid syntax")) ∧
    (e.error = .eSyntaxErr → e.expected = .notequal → e.token ≠ .indent →
      e.token ≠ .dedent →
      d.msg = "with Barry as BDFL, use \x27<>\x27 instead of \x27!=\x27" ∧
      cf.barryAsBdfl = true) := by
  obtain ⟨err, tok, exp, ln, off, txt, fn⟩ := e
  constructor
  · intro hb herr
    subst herr
    have hne : exp ≠ Tok.notequal := by
      intro hx
      have h2 := hp rfl hx
      simp [PARSER_FLAGS, hb] at h2
    by_cases h1 : exp = Tok.indent
    · simp [err_input, diagOf, h1] at hd
      subst hd
      exact ⟨by simp, fun hx => absurd h1 hx⟩
    by_cases h2 : tok = Tok.indent
    · simp [err_input, diagOf, h1, h2] at hd
      subst hd
      exact ⟨by simp, fun _ hx => absurd h2 hx⟩
    by_cases h3 : tok = Tok.dedent
    · simp [err_input, diagOf, h1, h2, h3] at hd
      subst hd
      exact ⟨by simp, fun _ _ hx => absurd h3 hx⟩
    · simp [err_input, diagOf, h1, h2, h3, hne] at hd
      subst hd
      exact ⟨by simp, fun _ _ _ => rfl⟩
  · intro herr hexp ht1 ht2
    subst herr
    subst hexp
    have hb := hp rfl rfl
    simp [PARSER_FLAGS] at hb
    have h1 : ¬(Tok.notequal = Tok.indent) := by decide
    simp [err_input, diagOf, h1, ht1, ht2] at hd
    subst hd
    exact ⟨rfl, hb⟩

/-- C5 witness: without the flag, an E_SYNTAX detail the parser can emit
falls through to the generic invalid-syntax message. -/
theorem C5_witness :
    (⟨.syntaxError, "invalid syntax", "f.py", 3, 2, none⟩ : Diagnostic).msg =
      "invalid syntax" :=
  ((C5_barry_gated {} false none
      ⟨.eSyntaxErr, .other 6, .other 5, 3, 2, none, "f.py"⟩
      ⟨.syntaxError, "invalid syntax", "f.py", 3, 2, none⟩
      (fun _ hx => absurd hx (by decide)) (by decide)).1 rfl rfl).2
    (by decide) (by decide) (by decide)

/-- C9: whenever the source is a text object, the input normalizer forces
the ignore-encoding-cookie flag on, and every parse call of such a run
receives parser flags with the ignore-cookie bit set, regardless of the
caller's flags. -/
theorem C9_text_ignore_cookie (cf : CFlags) (b : List Nat) (env : Env)
    (fn mode : String) (flags : CFlags) (di : Bool) (opt : Int)
    (pf : ParserFlags)
    (hmem : Ev.parse pf ∈
      (ast37_compile_impl env (.text b) fn mode flags di opt).2) :
    ((source_as_string (.text b) "compile" "string, bytes or AST"
        cf).2).ignoreCookie = true ∧
      pf.ignoreCookie = true := by
  refine ⟨by simp [source_as_string], ?_⟩
  unfold ast37_compile_impl at hmem
  split at hmem
  · simp at hmem
  split at hmem
  · simp at hmem
  split at hmem
  · simp at hmem
  rename_i x cm hcm
  rcases hss : source_as_string (.text b) "compile" "string, bytes or AST"
      (implFlags flags di env.ambient) with ⟨sres, cf2⟩
  rw [hss] at hmem
  have hic : cf2.ignoreCookie = true := by
    have h2 := congrArg Prod.snd hss
    simp [source_as_string] at h2
    rw [← h2]
  rcases sres with rr | str
  · simp [isAstCheck] at hmem
  · have hpf := pyCompile_parse_flags env str fn (startSymbols.getD cm .fileInput)
      (some cf2) opt pf hmem
    subst hpf
    simp [PARSER_FLAGS, hic]

/-- C9 witness: a concrete text-source run parses with the ignore-cookie
parser flag on. -/
theorem C9_witness :
    ((source_as_string (.text [97]) "compile" "string, bytes or AST"
        ({} : CFlags)).2).ignoreCookie = true ∧
      (⟨false, true, false⟩ : ParserFlags).ignoreCookie = true :=
  C9_text_ignore_cookie {} [97] envOk "f.py" "exec" {} true 0
    ⟨false, true, false⟩ (by decide)

end Ast37
